import Mathlib

/-!
Verification of the FilmMate exposure-settings calculator
(`src/utils/exposureCalculator.ts` together with the constants in
`src/utils/constants.ts`).

Numbers are embedded as exact rationals (all catalog data and user input are
decimal literals); the exposure-value arithmetic, which the source performs
with `Math.log2`, is embedded as exact real arithmetic via `Real.logb 2`.
`Array.prototype.sort` (guaranteed stable by the ECMAScript specification) is
embedded as `List.insertionSort`, which is stable for a total preorder.
The two `throw new Error(...)` sites are embedded as an `Except` error type,
and possibly-null arguments as `Option`.
-/

namespace FilmMate

/-- Latitude record of a film stock (stops of over/under-exposure tolerance). -/
structure Latitude where
  over : ℚ
  under : ℚ
deriving DecidableEq

/-- Camera from `src/types/index.ts`. -/
structure Camera where
  id : String
  name : String
  availableShutterSpeeds : List ℚ
deriving DecidableEq

/-- Lens from `src/types/index.ts`. -/
structure Lens where
  id : String
  name : String
  availableApertures : List ℚ
deriving DecidableEq

/-- The `'Color' | 'Black & White'` union type. -/
inductive FilmType
  | color
  | blackAndWhite
deriving DecidableEq

/-- FilmStock from `src/types/index.ts`. -/
structure FilmStock where
  id : String
  name : String
  iso : ℚ
  type : FilmType
  latitude : Latitude
deriving DecidableEq

/-- LightingCondition from `src/types/index.ts`. -/
structure LightingCondition where
  id : String
  name : String
  description : String
  evValue : ℚ
deriving DecidableEq

/-- ExposureSettings from `src/types/index.ts`.  The `exposureDelta` field is
the delta rounded for display, a real number in this embedding. -/
structure ExposureSettings where
  aperture : ℚ
  shutterSpeed : ℚ
  iso : ℚ
  exposureDelta : ℝ

instance : Inhabited ExposureSettings := ⟨⟨0, 0, 0, 0⟩⟩

/-- ExposureCalculationResult from `src/utils/exposureCalculator.ts`. -/
structure ExposureCalculationResult where
  recommendedSettings : ExposureSettings
  alternativeSettings : List ExposureSettings

/-- The two error exits of `calculateExposureSettings`:
`'All inputs must be provided'` and
`'No valid exposure combinations found ...'`. -/
inductive CalcError
  | invalidInput
  | noValidCombination
deriving DecidableEq

/-- EXPOSURE_CONSTANTS.TOLERANCE from `src/utils/constants.ts`. -/
noncomputable def TOLERANCE : ℝ := 2

/-- EXPOSURE_CONSTANTS.ISO_BASE_VALUE. -/
def ISO_BASE_VALUE : ℚ := 100

/-- EXPOSURE_CONSTANTS.PREFERRED_SHUTTER_MIN. -/
def PREFERRED_SHUTTER_MIN : ℚ := 30

/-- EXPOSURE_CONSTANTS.PREFERRED_SHUTTER_MAX. -/
def PREFERRED_SHUTTER_MAX : ℚ := 500

/-- EXPOSURE_CONSTANTS.ACCEPTABLE_SHUTTER_MIN. -/
def ACCEPTABLE_SHUTTER_MIN : ℚ := 15

/-- EXPOSURE_CONSTANTS.ACCEPTABLE_SHUTTER_MAX. -/
def ACCEPTABLE_SHUTTER_MAX : ℚ := 1000

/-- `calculateExposureValue(aperture, shutter, iso)`:
`Math.log2(Math.pow(aperture, 2) / shutter) + Math.log2(iso / ISO_BASE_VALUE)`. -/
noncomputable def calculateExposureValue (aperture shutter iso : ℚ) : ℝ :=
  Real.logb 2 ((aperture : ℝ) ^ 2 / (shutter : ℝ)) +
    Real.logb 2 ((iso : ℝ) / (ISO_BASE_VALUE : ℝ))

/-- `isExposureWithinTolerance(actualEV, targetEV)`:
`Math.abs(actualEV - targetEV) <= tolerance`. -/
def isExposureWithinTolerance (actualEV targetEV : ℝ) : Prop :=
  |actualEV - targetEV| ≤ TOLERANCE

open Classical in
/-- `isExposureWithinLatitude(delta, filmStock)`.  The `!filmStock.latitude`
guard of the source is dead code here because the `latitude` field of the
`FilmStock` type is not optional. -/
noncomputable def isExposureWithinLatitude (delta : ℝ) (filmStock : FilmStock) : Prop :=
  if 0 < delta then delta ≤ (filmStock.latitude.over : ℝ)
  else |delta| ≤ (filmStock.latitude.under : ℝ)

/-- `parseFloat(delta.toFixed(2))`: rounding to two decimal places.  `toFixed`
picks the nearest hundredth, ties toward the larger value, exactly like
Mathlib's `round`. -/
noncomputable def roundTo2 (x : ℝ) : ℝ := (round (x * 100) : ℤ) / 100

open Classical in
/-- `findValidCombinations(shutterSpeeds, apertures, iso, targetExposureValue,
filmStock)`: the nested `for..of` loops (shutter-major, aperture-minor) keeping
the pairs within tolerance.  The latitude check is computed and its result
discarded, exactly as in the source. -/
noncomputable def findValidCombinations (shutterSpeeds apertures : List ℚ)
    (iso targetExposureValue : ℚ) (filmStock : FilmStock) : List ExposureSettings :=
  shutterSpeeds.flatMap fun shutterSpeed =>
    apertures.filterMap fun aperture =>
      let shutter : ℚ := 1 / shutterSpeed
      let actualExposureValue := calculateExposureValue aperture shutter iso
      let delta := actualExposureValue - (targetExposureValue : ℝ)
      if isExposureWithinTolerance actualExposureValue (targetExposureValue : ℝ) then
        let _latitudeCheck := isExposureWithinLatitude delta filmStock
        some { aperture := aperture, shutterSpeed := shutterSpeed, iso := iso,
               exposureDelta := roundTo2 delta }
      else
        none

/-- The in-place ascending sort `availableApertures.sort((a, b) => a - b)`
performed by `getApertureScore`. -/
def sortAsc (l : List ℚ) : List ℚ := l.insertionSort (· ≤ ·)

/-- `getApertureScore(aperture, availableApertures)`:
`10 - Math.abs(sorted.indexOf(aperture) - Math.floor(sorted.length / 2))`.
The source sorts `availableApertures` in place; the resulting mutation of
`lens.availableApertures` is modelled by `aperturesAfterSolve` below. -/
def getApertureScore (aperture : ℚ) (availableApertures : List ℚ) : ℚ :=
  let sorted := sortAsc availableApertures
  let midIndex : ℕ := sorted.length / 2
  10 - ((|(sorted.indexOf aperture : ℤ) - (midIndex : ℤ)| : ℤ) : ℚ)

/-- `getShutterSpeedScore(shutterSpeed)`: 1 in the preferred band `[30, 500]`,
0.5 in the acceptable band `[15, 1000]`, otherwise 0. -/
def getShutterSpeedScore (shutterSpeed : ℚ) : ℚ :=
  if PREFERRED_SHUTTER_MIN ≤ shutterSpeed ∧ shutterSpeed ≤ PREFERRED_SHUTTER_MAX then 1
  else if ACCEPTABLE_SHUTTER_MIN ≤ shutterSpeed ∧ shutterSpeed ≤ ACCEPTABLE_SHUTTER_MAX then 1/2
  else 0

/-- `calculateBalanceScore(settings, lens)`. -/
def calculateBalanceScore (settings : ExposureSettings) (lens : Lens) : ℚ :=
  getApertureScore settings.aperture lens.availableApertures +
    getShutterSpeedScore settings.shutterSpeed

/-- The total preorder induced by the comparator `(a, b) => bScore - aScore`:
`a` may sit before `b` iff `score b ≤ score a`. -/
def scoreGe (lens : Lens) (a b : ExposureSettings) : Prop :=
  calculateBalanceScore b lens ≤ calculateBalanceScore a lens

instance (lens : Lens) : DecidableRel (scoreGe lens) := fun _x _y =>
  inferInstanceAs (Decidable (_ ≤ _))

instance (lens : Lens) : IsTotal ExposureSettings (scoreGe lens) :=
  ⟨fun x y => le_total (calculateBalanceScore y lens) (calculateBalanceScore x lens)⟩

instance (lens : Lens) : IsTrans ExposureSettings (scoreGe lens) :=
  ⟨fun _ _ _ h1 h2 => le_trans h2 h1⟩

/-- `selectRecommendedSettings(combinations, lens)`: stable sort by descending
balance score, then take the first element (`sortedCombinations[0]`). -/
noncomputable def selectRecommendedSettings (combinations : List ExposureSettings)
    (lens : Lens) : ExposureSettings :=
  (combinations.insertionSort (scoreGe lens)).headI

/-- `isSameSettings(a, b)`: compares aperture, shutter speed and ISO
(not the delta). -/
def isSameSettings (a b : ExposureSettings) : Bool :=
  a.aperture == b.aperture && a.shutterSpeed == b.shutterSpeed && a.iso == b.iso

/-- `selectAlternativeSettings(combinations, recommended, lens)`: drop the
candidates equal to the recommendation, stable-sort by descending score, take
the first three (`slice(0, 3)`). -/
noncomputable def selectAlternativeSettings (combinations : List ExposureSettings)
    (recommended : ExposureSettings) (lens : Lens) : List ExposureSettings :=
  ((combinations.filter fun combo => !isSameSettings combo recommended).insertionSort
    (scoreGe lens)).take 3

/-- `calculateExposureSettings(camera, lens, filmStock, lightingCondition)`,
the public entry point.  Possibly-null arguments are `Option`s and the two
thrown errors are the two `CalcError`s.  `selectRecommendedSettings` sorts
`validCombinations` IN PLACE in the source, so `selectAlternativeSettings`
receives the sorted array; the pure embedding passes it explicitly. -/
noncomputable def calculateExposureSettings (camera : Option Camera) (lens : Option Lens)
    (filmStock : Option FilmStock) (lightingCondition : Option LightingCondition) :
    Except CalcError ExposureCalculationResult :=
  match camera, lens, filmStock, lightingCondition with
  | some cam, some lns, some film, some cond =>
    let iso := film.iso
    let targetExposureValue := cond.evValue
    let validCombinations := findValidCombinations cam.availableShutterSpeeds
      lns.availableApertures iso targetExposureValue film
    if validCombinations.length = 0 then
      .error .noValidCombination
    else
      let recommendedSettings := selectRecommendedSettings validCombinations lns
      let alternativeSettings := selectAlternativeSettings
        (validCombinations.insertionSort (scoreGe lns)) recommendedSettings lns
      .ok { recommendedSettings := recommendedSettings,
            alternativeSettings := alternativeSettings }
  | _, _, _, _ => .error .invalidInput

/-- The contents of `lens.availableApertures` after `calculateExposureSettings`
returns.  `getApertureScore` sorts the array in place with
`availableApertures.sort((a, b) => a - b)`; it runs exactly when the
balance-score comparator is invoked at least once, i.e. when at least two
candidates survive the tolerance filter (a correct comparison sort calls the
comparator at least once on two or more elements and never on fewer). -/
noncomputable def aperturesAfterSolve (cam : Camera) (lns : Lens) (film : FilmStock)
    (cond : LightingCondition) : List ℚ :=
  if 2 ≤ (findValidCombinations cam.availableShutterSpeeds lns.availableApertures
      film.iso cond.evValue film).length then
    sortAsc lns.availableApertures
  else
    lns.availableApertures

/-! ### Generic lemmas about the stable sort -/

section SortLemmas

variable {α : Type*} {β : Type*} [LinearOrder β]

/-- Inserting an element that is `r`-related to every member of the list puts
it at the front. -/
theorem orderedInsert_eq_cons (r : α → α → Prop) [DecidableRel r] (x : α) :
    ∀ (l : List α), (∀ z ∈ l, r x z) → List.orderedInsert r x l = x :: l
  | [], _ => rfl
  | y :: t, h => by
    have hxy : r x y := h y (List.mem_cons_self y t)
    simp [List.orderedInsert, hxy]

/-- The head of the descending stable sort of `pre ++ x :: post` is `x`, when
`x` has maximal key in the whole list and strictly greater key than everything
before it. -/
theorem headI_insertionSort_pick (key : α → β) (r : α → α → Prop) [DecidableRel r]
    [Inhabited α] (hr : ∀ a b, r a b ↔ key b ≤ key a) :
    ∀ (pre : List α) (x : α) (post : List α),
      (∀ y ∈ pre ++ x :: post, key y ≤ key x) →
      (∀ y ∈ pre, key y < key x) →
      (List.insertionSort r (pre ++ x :: post)).headI = x
  | [], x, post, hmax, _ => by
    simp only [List.nil_append, List.insertionSort]
    rcases hpost : List.insertionSort r post with - | ⟨z, t⟩
    · simp [List.orderedInsert]
    · have hz : z ∈ post := by
        rw [← @List.mem_insertionSort _ r _ post z, hpost]; exact List.mem_cons_self z t
      have : r x z := (hr x z).mpr (hmax z (by simp [hz]))
      simp [List.orderedInsert, this]
  | p :: pre, x, post, hmax, hpre => by
    have ih : (List.insertionSort r (pre ++ x :: post)).headI = x :=
      headI_insertionSort_pick key r hr pre x post
        (fun y hy => hmax y (by simpa using Or.inr (by simpa using hy)))
        (fun y hy => hpre y (List.mem_cons_of_mem p hy))
    have hne : List.insertionSort r (pre ++ x :: post) ≠ [] := by
      intro h
      have := (List.perm_insertionSort r (pre ++ x :: post)).symm
      rw [h] at this
      simpa using this.eq_nil
    rcases hsort : List.insertionSort r (pre ++ x :: post) with - | ⟨z, t⟩
    · exact absurd hsort hne
    · have hz : z = x := by rw [hsort] at ih; simpa using ih
      subst hz
      have hpx : ¬ r p z := by
        rw [hr]
        exact not_le.mpr (hpre p (List.mem_cons_self p pre))
      rw [List.cons_append, List.insertionSort, hsort, List.orderedInsert, if_neg hpx]
      rfl

/-- The head of the descending stable sort is the enumeration-earliest element
of maximal key: the input splits as `pre ++ head :: post` with every key at
most `key head` and every key in `pre` strictly below it. -/
theorem headI_insertionSort_split (key : α → β) (r : α → α → Prop) [DecidableRel r]
    [Inhabited α] (hr : ∀ a b, r a b ↔ key b ≤ key a) :
    ∀ (l : List α), l ≠ [] →
      ∃ pre post, l = pre ++ (List.insertionSort r l).headI :: post ∧
        (∀ x ∈ l, key x ≤ key (List.insertionSort r l).headI) ∧
        ∀ x ∈ pre, key x < key (List.insertionSort r l).headI
  | [], h => absurd rfl h
  | x :: xs, _ => by
    rcases hxs : xs with - | ⟨y, ys⟩
    · exact ⟨[], [], by simp [List.insertionSort, List.orderedInsert], by
        simp [List.insertionSort, List.orderedInsert], by simp⟩
    · rw [← hxs]
      have hxs' : xs ≠ [] := by simp [hxs]
      obtain ⟨pre, post, hsplit, hmax, hpre⟩ := headI_insertionSort_split key r hr xs hxs'
      have hne : List.insertionSort r xs ≠ [] := by
        intro h
        have := (List.perm_insertionSort r xs).symm
        rw [h] at this
        exact hxs' this.eq_nil
      rcases hsort : List.insertionSort r xs with - | ⟨h', t⟩
      · exact absurd hsort hne
      · have hh' : (List.insertionSort r xs).headI = h' := by rw [hsort]; rfl
        rw [hh'] at hsplit hmax hpre
        by_cases hcmp : r x h'
        · -- key h' ≤ key x : x goes to the front and is the new argmax
          have hsx : (List.insertionSort r (x :: xs)).headI = x := by
            rw [List.insertionSort, hsort, List.orderedInsert, if_pos hcmp]
            rfl
          refine ⟨[], xs, by rw [hsx]; rfl, ?_, by simp⟩
          intro z hz
          rw [hsx]
          rcases List.mem_cons.mp hz with rfl | hz
          · exact le_refl _
          · exact le_trans (hmax z hz) ((hr x h').mp hcmp)
        · -- key x < key h' : the old argmax stays in front
          have hsx : (List.insertionSort r (x :: xs)).headI = h' := by
            rw [List.insertionSort, hsort, List.orderedInsert, if_neg hcmp]
            rfl
          have hxlt : key x < key h' := not_le.mp (fun h => hcmp ((hr x h').mpr h))
          refine ⟨x :: pre, post, ?_, ?_, ?_⟩
          · rw [hsx, List.cons_append, ← hsplit]
          · intro z hz
            rw [hsx]
            rcases List.mem_cons.mp hz with rfl | hz
            · exact le_of_lt hxlt
            · exact hmax z hz
          · intro z hz
            rw [hsx]
            rcases List.mem_cons.mp hz with rfl | hz
            · exact hxlt
            · exact hpre z hz

/-- Filtering commutes with inserting into a sorted list. -/
theorem filter_orderedInsert (r : α → α → Prop) [DecidableRel r] [IsTrans α r]
    (p : α → Bool) (x : α) :
    ∀ (l : List α), List.Sorted r l →
      (List.orderedInsert r x l).filter p =
        if p x then List.orderedInsert r x (l.filter p) else l.filter p
  | [], _ => by
    by_cases hx : p x <;> simp [List.orderedInsert, hx]
  | y :: t, hsort => by
    by_cases hxy : r x y
    · have hall : ∀ z ∈ (y :: t).filter p, r x z := by
        intro z hz
        rcases List.mem_cons.mp (List.mem_filter.mp hz).1 with rfl | hz'
        · exact hxy
        · exact Trans.trans hxy (List.rel_of_sorted_cons hsort z hz')
      rw [List.orderedInsert, if_pos hxy]
      by_cases hx : p x
      · rw [if_pos hx, orderedInsert_eq_cons r x _ hall]
        simp [List.filter, hx]
      · rw [if_neg hx]
        simp [List.filter, hx]
    · rw [List.orderedInsert, if_neg hxy]
      have ih := filter_orderedInsert r p x t hsort.of_cons
      by_cases hx : p x
      · rw [if_pos hx]
        by_cases hy : p y
        · have : List.orderedInsert r x ((y :: t).filter p) =
              y :: List.orderedInsert r x (t.filter p) := by
            simp only [List.filter, hy, cond_true, List.orderedInsert, hxy, if_false]
          rw [this]
          simp only [List.filter, hy, cond_true]
          rw [ih, if_pos hx]
        · simp only [List.filter, hy, cond_false]
          rw [ih, if_pos hx]
      · rw [if_neg hx]
        by_cases hy : p y <;> simp only [List.filter, hy, cond_true, cond_false] <;>
          rw [ih, if_neg hx]

/-- Filtering commutes with the stable sort (the stability property that
justifies sorting before or after filtering interchangeably). -/
theorem insertionSort_filter (r : α → α → Prop) [DecidableRel r] [IsTotal α r]
    [IsTrans α r] (p : α → Bool) :
    ∀ l : List α, (List.insertionSort r l).filter p = List.insertionSort r (l.filter p)
  | [] => rfl
  | x :: t => by
    rw [List.insertionSort,
      filter_orderedInsert r p x _ (List.sorted_insertionSort r t),
      insertionSort_filter r p t]
    by_cases hx : p x
    · rw [if_pos hx]
      simp only [List.filter, hx, cond_true, List.insertionSort]
    · rw [if_neg hx]
      simp only [List.filter, hx, cond_false]

/-- The head of a nonempty list is a member. -/
theorem headI_mem_of_ne_nil [Inhabited α] : ∀ (l : List α), l ≠ [] → l.headI ∈ l
  | [], h => absurd rfl h
  | x :: t, _ => by simp

end SortLemmas

/-! ### Numeric helper lemmas for the exposure-value arithmetic -/

/-- The two logarithms of `calculateExposureValue` collapse into a single
base-2 logarithm of the rational `a² · s · iso/100` when all inputs are
positive. -/
theorem calcEV_collapse (a s iso : ℚ) (ha : 0 < a) (hs : 0 < s) (hiso : 0 < iso) :
    calculateExposureValue a (1/s) iso =
      Real.logb 2 (((a^2 * s * (iso/100) : ℚ) : ℝ)) := by
  have hsne : (s:ℝ) ≠ 0 := by positivity
  have h100 : ((ISO_BASE_VALUE : ℚ) : ℝ) = 100 := by norm_num [ISO_BASE_VALUE]
  have h1 : ((1/s : ℚ) : ℝ) = 1/(s:ℝ) := by push_cast; ring
  unfold calculateExposureValue
  rw [h100, h1]
  have h2 : (a:ℝ)^2/(1/(s:ℝ)) = (a:ℝ)^2*(s:ℝ) := by field_simp
  rw [h2, ← Real.logb_mul (by positivity) (by positivity)]
  congr 1
  push_cast
  ring

/-- Base-2 logarithm of an integer power of two. -/
theorem logb_two_zpow (n : ℤ) : Real.logb 2 ((2:ℝ)^n) = n := by
  rw [← Real.rpow_intCast 2 n, Real.logb_rpow (by norm_num) (by norm_num)]

/-- The tolerance test, for positive inputs and an integer target EV, is
equivalent to a pair of rational comparisons against powers of two. -/
theorem tol_iff_of_pos (a s iso ev : ℚ) (n : ℤ) (ha : 0 < a) (hs : 0 < s)
    (hiso : 0 < iso) (hev : ev = (n : ℚ)) :
    isExposureWithinTolerance (calculateExposureValue a (1/s) iso) ((ev : ℚ) : ℝ) ↔
      ((2:ℚ)^(n-2) ≤ a^2*s*(iso/100) ∧ a^2*s*(iso/100) ≤ (2:ℚ)^(n+2)) := by
  subst hev
  rw [calcEV_collapse a s iso ha hs hiso]
  unfold isExposureWithinTolerance TOLERANCE
  set X : ℚ := a^2*s*(iso/100) with hX
  have hXpos : 0 < X := by rw [hX]; positivity
  have hXR : (0:ℝ) < (X:ℝ) := by exact_mod_cast hXpos
  have key1 : ∀ m : ℤ, (Real.logb 2 (X:ℝ) ≤ (m:ℝ) ↔ (X:ℝ) ≤ (2:ℝ)^m) := by
    intro m
    rw [← logb_two_zpow m]
    exact Real.logb_le_logb (by norm_num) hXR (zpow_pos (by norm_num) m)
  have key2 : ∀ m : ℤ, ((m:ℝ) ≤ Real.logb 2 (X:ℝ) ↔ (2:ℝ)^m ≤ (X:ℝ)) := by
    intro m
    rw [← logb_two_zpow m]
    exact Real.logb_le_logb (by norm_num) (zpow_pos (by norm_num) m) hXR
  have hcast : (((n:ℚ) : ℚ) : ℝ) = (n:ℝ) := by push_cast; rfl
  rw [hcast, abs_le]
  have e1 : (Real.logb 2 (X:ℝ) - (n:ℝ) ≤ 2) ↔ Real.logb 2 (X:ℝ) ≤ (((n+2 : ℤ)):ℝ) := by
    push_cast
    constructor <;> intro <;> linarith
  have e2 : ((-2:ℝ) ≤ Real.logb 2 (X:ℝ) - (n:ℝ)) ↔ (((n-2 : ℤ)):ℝ) ≤ Real.logb 2 (X:ℝ) := by
    push_cast
    constructor <;> intro <;> linarith
  rw [e1, e2, key1 (n+2), key2 (n-2)]
  have hz : ∀ m : ℤ, ((2:ℝ)^m) = (((2:ℚ)^m : ℚ) : ℝ) := by
    intro m
    rw [Rat.cast_zpow]
    norm_num
  rw [hz (n+2), hz (n-2), Rat.cast_le, Rat.cast_le]

/-- The exposure value at inputs whose combined product is an exact power of
two. -/
theorem calcEV_pow2 (a s iso : ℚ) (k : ℤ) (ha : 0 < a) (hs : 0 < s) (hiso : 0 < iso)
    (h1 : a^2*s*(iso/100) = (2:ℚ)^k) :
    calculateExposureValue a (1/s) iso = (k:ℝ) := by
  rw [calcEV_collapse a s iso ha hs hiso, h1]
  rw [show (((2:ℚ)^k : ℚ):ℝ) = (2:ℝ)^k by push_cast; rfl, logb_two_zpow]

/-- Rounding an integer to two decimal places leaves it unchanged. -/
theorem roundTo2_intCast (z : ℤ) : roundTo2 ((z : ℤ) : ℝ) = (z:ℝ) := by
  unfold roundTo2
  rw [show ((z:ℝ) * 100) = (((z*100 : ℤ)):ℝ) by push_cast; ring, round_intCast]
  push_cast
  ring

/-- Lower bound on the base-2 logarithm of 5, certified by an integer power
comparison. -/
theorem logb_two_five_lo : (927/400 : ℝ) ≤ Real.logb 2 5 := by
  have hpow : ((2:ℝ)^(927:ℕ)) ≤ (5:ℝ)^(400:ℕ) := by
    exact_mod_cast (by norm_num : (2:ℕ)^927 ≤ 5^400)
  have h1 : Real.logb 2 ((2:ℝ)^(927:ℕ)) ≤ Real.logb 2 ((5:ℝ)^(400:ℕ)) :=
    Real.logb_le_logb_of_le (by norm_num) (by positivity) hpow
  rw [Real.logb_pow, Real.logb_pow, Real.logb_self_eq_one (by norm_num)] at h1
  push_cast at h1
  linarith

/-- Upper bound on the base-2 logarithm of 5. -/
theorem logb_two_five_hi : Real.logb 2 5 < (929/400 : ℝ) := by
  have hpow : ((5:ℝ)^(400:ℕ)) < (2:ℝ)^(929:ℕ) := by
    exact_mod_cast (by norm_num : (5:ℕ)^400 < 2^929)
  have h1 : Real.logb 2 ((5:ℝ)^(400:ℕ)) < Real.logb 2 ((2:ℝ)^(929:ℕ)) :=
    Real.logb_lt_logb (by norm_num) (by positivity) hpow
  rw [Real.logb_pow, Real.logb_pow, Real.logb_self_eq_one (by norm_num)] at h1
  push_cast at h1
  linarith

/-- The exposure value of the sunny-16 reference input f/16, 1/200 s, ISO 200. -/
theorem calcEV_sunny16 : calculateExposureValue 16 (1/200) 200 = 2 * Real.logb 2 5 + 12 := by
  rw [calcEV_collapse 16 200 200 (by norm_num) (by norm_num) (by norm_num)]
  have h : ((16^2*200*(200/100) : ℚ) : ℝ) = (2:ℝ)^(12:ℕ) * 5^(2:ℕ) := by
    push_cast
    norm_num
  rw [h, Real.logb_mul (by positivity) (by positivity), Real.logb_pow, Real.logb_pow,
    Real.logb_self_eq_one (by norm_num)]
  push_cast
  ring

/-- The unrounded sunny-16 delta `2·log₂5 − 3 ≈ 1.6439` rounds to `1.64`. -/
theorem roundTo2_sunny16 : roundTo2 (2 * Real.logb 2 5 - 3) = 164/100 := by
  have hlo := logb_two_five_lo
  have hhi := logb_two_five_hi
  unfold roundTo2
  have h : round ((2 * Real.logb 2 5 - 3) * 100) = 164 := by
    rw [round_eq, Int.floor_eq_iff]
    constructor
    · push_cast
      linarith
    · push_cast
      linarith
  rw [h]
  norm_num

/-! ### Structural lemmas about the pipeline -/

/-- Abbreviation: the candidate list produced by one solver invocation. -/
noncomputable def combosOf (cam : Camera) (lns : Lens) (film : FilmStock)
    (cond : LightingCondition) : List ExposureSettings :=
  findValidCombinations cam.availableShutterSpeeds lns.availableApertures film.iso
    cond.evValue film

/-- Membership in `findValidCombinations`: exactly the within-tolerance pairs of
the two equipment lists, each carrying the film ISO and its rounded delta. -/
theorem mem_findValidCombinations {shutterSpeeds apertures : List ℚ} {iso ev : ℚ}
    {f : FilmStock} {x : ExposureSettings} :
    x ∈ findValidCombinations shutterSpeeds apertures iso ev f ↔
      x.shutterSpeed ∈ shutterSpeeds ∧ x.aperture ∈ apertures ∧ x.iso = iso ∧
      isExposureWithinTolerance (calculateExposureValue x.aperture (1/x.shutterSpeed) iso)
        ((ev : ℚ) : ℝ) ∧
      x.exposureDelta =
        roundTo2 (calculateExposureValue x.aperture (1/x.shutterSpeed) iso - ((ev : ℚ) : ℝ)) := by
  simp only [findValidCombinations, List.mem_flatMap, List.mem_filterMap]
  constructor
  · rintro ⟨s, hs, a, ha, hif⟩
    by_cases htol : isExposureWithinTolerance (calculateExposureValue a (1/s) iso) ((ev:ℚ):ℝ)
    · rw [if_pos htol] at hif
      cases hif
      exact ⟨hs, ha, rfl, htol, rfl⟩
    · rw [if_neg htol] at hif
      exact absurd hif (by simp)
  · rintro ⟨hs, ha, hiso, htol, hdelta⟩
    refine ⟨x.shutterSpeed, hs, x.aperture, ha, ?_⟩
    rw [if_pos htol]
    rcases x with ⟨xa, xs, xi, xd⟩
    simp only at hiso hdelta
    rw [hiso, hdelta]

/-- The candidate list is empty exactly when no equipment pair is within
tolerance. -/
theorem findValidCombinations_eq_nil_iff {shutterSpeeds apertures : List ℚ} {iso ev : ℚ}
    {f : FilmStock} :
    findValidCombinations shutterSpeeds apertures iso ev f = [] ↔
      ∀ s ∈ shutterSpeeds, ∀ a ∈ apertures,
        ¬ isExposureWithinTolerance (calculateExposureValue a (1/s) iso) ((ev : ℚ) : ℝ) := by
  simp only [findValidCombinations, List.flatMap_eq_nil_iff, List.filterMap_eq_nil_iff]
  constructor
  · intro h s hs a ha htol
    have h2 := h s hs a ha
    rw [if_pos htol] at h2
    exact absurd h2 (by simp)
  · intro h s hs a ha
    rw [if_neg (h s hs a ha)]

/-- Unfolding of the solver in the all-arguments-present case. -/
theorem calculateExposureSettings_some_def (cam : Camera) (lns : Lens) (film : FilmStock)
    (cond : LightingCondition) :
    calculateExposureSettings (some cam) (some lns) (some film) (some cond) =
      if (combosOf cam lns film cond).length = 0 then
        .error .noValidCombination
      else
        .ok { recommendedSettings := selectRecommendedSettings (combosOf cam lns film cond) lns,
              alternativeSettings := selectAlternativeSettings
                ((combosOf cam lns film cond).insertionSort (scoreGe lns))
                (selectRecommendedSettings (combosOf cam lns film cond) lns) lns } := rfl

/-- The invalid-input error occurs exactly when an argument is missing. -/
theorem calculateExposureSettings_invalid_iff (camera : Option Camera) (lens : Option Lens)
    (filmStock : Option FilmStock) (lightingCondition : Option LightingCondition) :
    calculateExposureSettings camera lens filmStock lightingCondition =
        .error .invalidInput ↔
      camera = none ∨ lens = none ∨ filmStock = none ∨ lightingCondition = none := by
  cases camera <;> cases lens <;> cases filmStock <;> cases lightingCondition <;>
    simp only [calculateExposureSettings, Except.error.injEq, reduceCtorEq] <;>
    try simp
  split <;> simp

/-- With all four arguments present, the no-valid-combination error occurs
exactly when the candidate list is empty. -/
theorem calculateExposureSettings_noValid_iff (cam : Camera) (lns : Lens)
    (film : FilmStock) (cond : LightingCondition) :
    calculateExposureSettings (some cam) (some lns) (some film) (some cond) =
        .error .noValidCombination ↔
      combosOf cam lns film cond = [] := by
  rw [calculateExposureSettings_some_def, ← List.length_eq_zero]
  split
  · simp only [true_iff]
    assumption
  · simp only [reduceCtorEq, false_iff]
    assumption

/-- With a nonempty candidate list the solver returns the sorted head and the
alternatives drawn from the sorted candidate list. -/
theorem calculateExposureSettings_ok_of_ne_nil {cam : Camera} {lns : Lens}
    {film : FilmStock} {cond : LightingCondition}
    (h : combosOf cam lns film cond ≠ []) :
    calculateExposureSettings (some cam) (some lns) (some film) (some cond) =
      .ok { recommendedSettings := selectRecommendedSettings (combosOf cam lns film cond) lns,
            alternativeSettings := selectAlternativeSettings
              ((combosOf cam lns film cond).insertionSort (scoreGe lns))
              (selectRecommendedSettings (combosOf cam lns film cond) lns) lns } := by
  rw [calculateExposureSettings_some_def,
    if_neg (by simpa [List.length_eq_zero] using h)]

/-- If the solver succeeds, the candidate list is nonempty and the result is
built from it as in `calculateExposureSettings_ok_of_ne_nil`. -/
theorem calculateExposureSettings_ok_elim {cam : Camera} {lns : Lens} {film : FilmStock}
    {cond : LightingCondition} {r : ExposureCalculationResult}
    (h : calculateExposureSettings (some cam) (some lns) (some film) (some cond) = .ok r) :
    combosOf cam lns film cond ≠ [] ∧
    r.recommendedSettings = selectRecommendedSettings (combosOf cam lns film cond) lns ∧
    r.alternativeSettings = selectAlternativeSettings
      ((combosOf cam lns film cond).insertionSort (scoreGe lns))
      (selectRecommendedSettings (combosOf cam lns film cond) lns) lns := by
  rw [calculateExposureSettings_some_def] at h
  by_cases hlen : (combosOf cam lns film cond).length = 0
  · rw [if_pos hlen] at h
    exact absurd h (by simp)
  · rw [if_neg hlen] at h
    injection h with h2
    refine ⟨by simpa [List.length_eq_zero] using hlen, ?_, ?_⟩ <;> rw [← h2]

/-- Membership in the candidate list of an invocation. -/
theorem mem_combosOf {cam : Camera} {lns : Lens} {film : FilmStock}
    {cond : LightingCondition} {x : ExposureSettings} :
    x ∈ combosOf cam lns film cond ↔
      x.shutterSpeed ∈ cam.availableShutterSpeeds ∧ x.aperture ∈ lns.availableApertures ∧
      x.iso = film.iso ∧
      isExposureWithinTolerance
        (calculateExposureValue x.aperture (1/x.shutterSpeed) film.iso)
        ((cond.evValue : ℚ) : ℝ) ∧
      x.exposureDelta =
        roundTo2 (calculateExposureValue x.aperture (1/x.shutterSpeed) film.iso -
          ((cond.evValue : ℚ) : ℝ)) :=
  mem_findValidCombinations

/-- Every setting returned by a successful invocation is a member of its
candidate list. -/
theorem result_settings_mem_combosOf {cam : Camera} {lns : Lens} {film : FilmStock}
    {cond : LightingCondition} {r : ExposureCalculationResult}
    (h : calculateExposureSettings (some cam) (some lns) (some film) (some cond) = .ok r) :
    ∀ s ∈ r.recommendedSettings :: r.alternativeSettings, s ∈ combosOf cam lns film cond := by
  obtain ⟨hne, hrec, halts⟩ := calculateExposureSettings_ok_elim h
  intro s hsmem
  rcases List.mem_cons.mp hsmem with rfl | hsalt
  · rw [hrec]
    unfold selectRecommendedSettings
    have hsortne : (combosOf cam lns film cond).insertionSort (scoreGe lns) ≠ [] := by
      intro hnil
      have hp := List.perm_insertionSort (scoreGe lns) (combosOf cam lns film cond)
      rw [hnil] at hp
      exact hne hp.symm.eq_nil
    exact (List.mem_insertionSort (scoreGe lns)).mp (headI_mem_of_ne_nil _ hsortne)
  · rw [halts] at hsalt
    unfold selectAlternativeSettings at hsalt
    have h1 := List.take_subset 3 _ hsalt
    have h2 := (List.mem_insertionSort (scoreGe lns)).mp h1
    have h3 := List.mem_filter.mp h2
    exact (List.mem_insertionSort (scoreGe lns)).mp h3.1

/-- Rounding zero gives zero. -/
theorem roundTo2_zero : roundTo2 0 = 0 := by
  unfold roundTo2
  norm_num

/-! ### Concrete fixtures used by witnesses and counterexamples -/

/-- A camera with the given shutter speeds. -/
def camK (speeds : List ℚ) : Camera := ⟨"cam", "cam", speeds⟩

/-- A lens with the given apertures. -/
def lensK (aps : List ℚ) : Lens := ⟨"lens", "lens", aps⟩

/-- A colour film stock with the given ISO and latitude +2/−1. -/
def filmK (iso : ℚ) : FilmStock := ⟨"film", "film", iso, FilmType.color, ⟨2, 1⟩⟩

/-- A lighting condition with the given EV. -/
def condK (ev : ℚ) : LightingCondition := ⟨"light", "light", "light", ev⟩

/-! ### The claims -/

/-- C1: for every camera, lens, film stock and lighting condition on which the
solver returns a result, every ExposureSetting in that result — the
recommended setting and each alternative — has its aperture in
`lens.availableApertures`, its shutter speed in
`camera.availableShutterSpeeds`, and its ISO equal to `filmStock.iso`. -/
theorem C1_domain_containment (cam : Camera) (lns : Lens) (film : FilmStock)
    (cond : LightingCondition) (r : ExposureCalculationResult)
    (h : calculateExposureSettings (some cam) (some lns) (some film) (some cond) = .ok r) :
    ∀ s ∈ r.recommendedSettings :: r.alternativeSettings,
      s.aperture ∈ lns.availableApertures ∧
      s.shutterSpeed ∈ cam.availableShutterSpeeds ∧
      s.iso = film.iso := by
  intro s hs
  have hmem := mem_combosOf.mp (result_settings_mem_combosOf h s hs)
  exact ⟨hmem.2.1, hmem.1, hmem.2.2.1⟩

/-- The candidate list of the simplest witness invocation: one shutter speed
1/1 s, one aperture f/1, ISO 100, EV 0; its single candidate has delta 0. -/
theorem combosOf_unit : combosOf (camK [1]) (lensK [1]) (filmK 100) (condK 0) =
    [⟨1, 1, 100, 0⟩] := by
  have htol : isExposureWithinTolerance (calculateExposureValue 1 (1/1) 100) (((0:ℚ)):ℝ) :=
    (tol_iff_of_pos 1 1 100 0 0 (by norm_num) (by norm_num) (by norm_num)
      (by norm_num)).mpr (by constructor <;> norm_num)
  have hEV : calculateExposureValue 1 (1/1) 100 = ((0:ℤ):ℝ) :=
    calcEV_pow2 1 1 100 0 (by norm_num) (by norm_num) (by norm_num) (by norm_num)
  unfold combosOf findValidCombinations
  simp only [camK, lensK, filmK, condK]
  simp only [List.flatMap_cons, List.flatMap_nil, List.filterMap_cons, List.filterMap_nil]
  rw [if_pos htol]
  simp only [List.append_nil]
  have : roundTo2 (calculateExposureValue 1 (1/1) 100 - ((0:ℚ):ℝ)) = 0 := by
    rw [hEV]
    norm_num [roundTo2_zero]
  rw [this]

/-- The solver's output on the simplest witness invocation. -/
theorem solve_unit : calculateExposureSettings (some (camK [1])) (some (lensK [1]))
    (some (filmK 100)) (some (condK 0)) = .ok ⟨⟨1, 1, 100, 0⟩, []⟩ := by
  rw [calculateExposureSettings_ok_of_ne_nil (by rw [combosOf_unit]; simp)]
  rw [combosOf_unit]
  have hsort : List.insertionSort (scoreGe (lensK [1])) [(⟨1, 1, 100, 0⟩ : ExposureSettings)] =
      [⟨1, 1, 100, 0⟩] := by
    simp [List.insertionSort, List.orderedInsert]
  have hrec : selectRecommendedSettings [(⟨1, 1, 100, 0⟩ : ExposureSettings)] (lensK [1]) =
      ⟨1, 1, 100, 0⟩ := by
    unfold selectRecommendedSettings
    rw [hsort]
    rfl
  have halt : selectAlternativeSettings [(⟨1, 1, 100, 0⟩ : ExposureSettings)]
      (⟨1, 1, 100, 0⟩ : ExposureSettings) (lensK [1]) = [] := by
    unfold selectAlternativeSettings
    simp [isSameSettings, List.insertionSort]
  rw [hsort, hrec, halt]

/-- Witness for C1 at the unit fixture. -/
theorem C1_domain_containment_witness :
    calculateExposureSettings (some (camK [1])) (some (lensK [1])) (some (filmK 100))
        (some (condK 0)) = .ok ⟨⟨1, 1, 100, 0⟩, []⟩ ∧
    (1:ℚ) ∈ (lensK [1]).availableApertures ∧
    (1:ℚ) ∈ (camK [1]).availableShutterSpeeds ∧
    (100:ℚ) = (filmK 100).iso := by
  have hok := solve_unit
  have hprop := C1_domain_containment _ _ _ _ _ hok ⟨1, 1, 100, 0⟩ (by simp)
  exact ⟨hok, hprop.1, hprop.2.1, hprop.2.2⟩

/-- C4: the solver fails with the invalid-input error exactly when an argument
is missing; with all four present it fails with the no-valid-combination error
exactly when no equipment pair is within tolerance of the target EV, and
returns a result otherwise — these are the only failure modes.  The tolerance
bound is inclusive: an unrounded delta of absolute value exactly 2.0 passes
the filter predicate, one of 2.01 does not. -/
theorem C4_error_modes :
    (∀ (camera : Option Camera) (lens : Option Lens) (filmStock : Option FilmStock)
        (lightingCondition : Option LightingCondition),
      calculateExposureSettings camera lens filmStock lightingCondition =
          .error .invalidInput ↔
        camera = none ∨ lens = none ∨ filmStock = none ∨ lightingCondition = none) ∧
    (∀ (cam : Camera) (lns : Lens) (film : FilmStock) (cond : LightingCondition),
      calculateExposureSettings (some cam) (some lns) (some film) (some cond) =
          .error .noValidCombination ↔
        ∀ s ∈ cam.availableShutterSpeeds, ∀ a ∈ lns.availableApertures,
          ¬ isExposureWithinTolerance (calculateExposureValue a (1/s) film.iso)
            ((cond.evValue : ℚ) : ℝ)) ∧
    (∀ (cam : Camera) (lns : Lens) (film : FilmStock) (cond : LightingCondition),
      (∃ r, calculateExposureSettings (some cam) (some lns) (some film) (some cond) =
          .ok r) ↔
        ∃ s ∈ cam.availableShutterSpeeds, ∃ a ∈ lns.availableApertures,
          isExposureWithinTolerance (calculateExposureValue a (1/s) film.iso)
            ((cond.evValue : ℚ) : ℝ)) ∧
    (∀ actualEV targetEV : ℝ, |actualEV - targetEV| = 2 →
      isExposureWithinTolerance actualEV targetEV) ∧
    (∀ actualEV targetEV : ℝ, |actualEV - targetEV| = 201/100 →
      ¬ isExposureWithinTolerance actualEV targetEV) := by
  refine ⟨calculateExposureSettings_invalid_iff, ?_, ?_, ?_, ?_⟩
  · intro cam lns film cond
    rw [calculateExposureSettings_noValid_iff]
    exact findValidCombinations_eq_nil_iff
  · intro cam lns film cond
    constructor
    · rintro ⟨r, hr⟩
      have hne := (calculateExposureSettings_ok_elim hr).1
      have := (not_iff_not.mpr (@findValidCombinations_eq_nil_iff
        cam.availableShutterSpeeds lns.availableApertures film.iso cond.evValue
        film)).mp hne
      push_neg at this
      obtain ⟨s, hs, a, ha, htol⟩ := this
      exact ⟨s, hs, a, ha, htol⟩
    · rintro ⟨s, hs, a, ha, htol⟩
      have hne : combosOf cam lns film cond ≠ [] := by
        unfold combosOf
        rw [Ne, findValidCombinations_eq_nil_iff]
        push_neg
        exact ⟨s, hs, a, ha, htol⟩
      exact ⟨_, calculateExposureSettings_ok_of_ne_nil hne⟩
  · intro x t h
    unfold isExposureWithinTolerance TOLERANCE
    rw [h]
  · intro x t h
    unfold isExposureWithinTolerance TOLERANCE
    rw [h]
    norm_num

/-- Witness for C4: a missing camera gives the invalid-input error; EV 2 with
the unit equipment puts the single pair exactly on the tolerance boundary
(delta −2.0, accepted); EV 2.01 pushes it just outside (rejected); and the
predicate-level boundary facts at 2 and 2.01. -/
theorem C4_error_modes_witness :
    calculateExposureSettings none (some (lensK [1])) (some (filmK 100))
        (some (condK 0)) = .error .invalidInput ∧
    calculateExposureSettings (some (camK [1])) (some (lensK [1])) (some (filmK 100))
        (some (condK 2)) ≠ .error .noValidCombination ∧
    calculateExposureSettings (some (camK [1])) (some (lensK [1])) (some (filmK 100))
        (some (condK (201/100))) = .error .noValidCombination ∧
    isExposureWithinTolerance 2 0 ∧
    ¬ isExposureWithinTolerance (201/100) 0 := by
  obtain ⟨h1, h2, h3, h4, h5⟩ := C4_error_modes
  have hEV : calculateExposureValue 1 (1/1) 100 = ((0:ℤ):ℝ) :=
    calcEV_pow2 1 1 100 0 (by norm_num) (by norm_num) (by norm_num) (by norm_num)
  refine ⟨(h1 none _ _ _).mpr (Or.inl rfl), ?_, ?_, ?_, ?_⟩
  · have hok : ∃ r, calculateExposureSettings (some (camK [1])) (some (lensK [1]))
        (some (filmK 100)) (some (condK 2)) = .ok r := by
      refine (h3 _ _ _ _).mpr ⟨1, by simp [camK], 1, by simp [lensK], ?_⟩
      show isExposureWithinTolerance (calculateExposureValue 1 (1/1) (filmK 100).iso)
        (((condK 2).evValue : ℚ) : ℝ)
      simp only [filmK, condK]
      exact (tol_iff_of_pos 1 1 100 2 2 (by norm_num) (by norm_num) (by norm_num)
        (by norm_num)).mpr (by constructor <;> norm_num)
    obtain ⟨r, hr⟩ := hok
    rw [hr]
    simp
  · refine (h2 _ _ _ _).mpr ?_
    intro s hs a ha
    simp only [camK, List.mem_singleton] at hs
    simp only [lensK, List.mem_singleton] at ha
    subst hs
    subst ha
    show ¬ isExposureWithinTolerance (calculateExposureValue 1 (1/1) (filmK 100).iso)
      (((condK (201/100)).evValue : ℚ) : ℝ)
    simp only [filmK, condK]
    rw [hEV]
    unfold isExposureWithinTolerance TOLERANCE
    push_cast
    rw [abs_le]
    intro hcon
    linarith [hcon.1]
  · exact h4 2 0 (by norm_num)
  · exact h5 (201/100) 0 (by norm_num)

/-- C2: on success the recommended setting is a surviving candidate of maximal
balance score (balance score = aperture score + shutter score as computed by
`calculateBalanceScore`); among candidates of equal maximal score the
enumeration-earliest one (outer loop over camera shutter speeds, inner loop
over lens apertures) is recommended: the candidate list splits as
`pre ++ recommended :: post` with every score at most the recommended score
and every score in `pre` strictly below it. -/
theorem C2_recommended_argmax (cam : Camera) (lns : Lens) (film : FilmStock)
    (cond : LightingCondition) (r : ExposureCalculationResult)
    (h : calculateExposureSettings (some cam) (some lns) (some film) (some cond) = .ok r) :
    ∃ pre post, combosOf cam lns film cond = pre ++ r.recommendedSettings :: post ∧
      (∀ x ∈ combosOf cam lns film cond,
        calculateBalanceScore x lns ≤ calculateBalanceScore r.recommendedSettings lns) ∧
      ∀ x ∈ pre,
        calculateBalanceScore x lns < calculateBalanceScore r.recommendedSettings lns := by
  obtain ⟨hne, hrec, -⟩ := calculateExposureSettings_ok_elim h
  have hsplit := headI_insertionSort_split (fun x => calculateBalanceScore x lns)
    (scoreGe lns) (fun _ _ => Iff.rfl) (combosOf cam lns film cond) hne
  rw [hrec]
  unfold selectRecommendedSettings
  exact hsplit

/-- C3: on success the alternatives are exactly the surviving candidates whose
(aperture, shutterSpeed, iso) triple differs from the recommendation's, stably
sorted by balance score descending (ties in enumeration order, i.e. the stable
sort of the enumeration-ordered candidate list) and truncated to at most
three; in particular there are at most 3 of them and none has the recommended
triple. -/
theorem C3_alternatives (cam : Camera) (lns : Lens) (film : FilmStock)
    (cond : LightingCondition) (r : ExposureCalculationResult)
    (h : calculateExposureSettings (some cam) (some lns) (some film) (some cond) = .ok r) :
    r.alternativeSettings =
      (((combosOf cam lns film cond).filter fun x =>
          !isSameSettings x r.recommendedSettings).insertionSort (scoreGe lns)).take 3 ∧
    r.alternativeSettings.length ≤ 3 ∧
    ∀ x ∈ r.alternativeSettings, isSameSettings x r.recommendedSettings = false := by
  obtain ⟨hne, hrec, halts⟩ := calculateExposureSettings_ok_elim h
  have key : r.alternativeSettings =
      (((combosOf cam lns film cond).filter fun x =>
          !isSameSettings x r.recommendedSettings).insertionSort (scoreGe lns)).take 3 := by
    rw [halts, hrec]
    unfold selectAlternativeSettings
    rw [insertionSort_filter (scoreGe lns) _ (combosOf cam lns film cond),
      List.Sorted.insertionSort_eq (List.sorted_insertionSort (scoreGe lns) _)]
  refine ⟨key, ?_, ?_⟩
  · rw [key]
    exact List.length_take_le 3 _
  · intro x hx
    rw [key] at hx
    have h1 := List.take_subset 3 _ hx
    have h2 := (List.mem_insertionSort (scoreGe lns)).mp h1
    have h3 := (List.mem_filter.mp h2).2
    simpa using h3

/-- C5: every candidate pair's delta is the exposure-value formula
`log2(a²/(1/s)) + log2(iso/100) − EV_target`; the tolerance filter decides
membership in the candidate list by the unrounded delta, and the
`exposureDelta` field of every returned setting is that unrounded delta
rounded to two decimal places. -/
theorem C5_delta_reporting (cam : Camera) (lns : Lens) (film : FilmStock)
    (cond : LightingCondition) (r : ExposureCalculationResult)
    (h : calculateExposureSettings (some cam) (some lns) (some film) (some cond) = .ok r) :
    (∀ s ∈ cam.availableShutterSpeeds, ∀ a ∈ lns.availableApertures,
      ((∃ x ∈ combosOf cam lns film cond, x.aperture = a ∧ x.shutterSpeed = s) ↔
        isExposureWithinTolerance (calculateExposureValue a (1/s) film.iso)
          ((cond.evValue : ℚ) : ℝ))) ∧
    ∀ x ∈ r.recommendedSettings :: r.alternativeSettings,
      isExposureWithinTolerance
        (calculateExposureValue x.aperture (1/x.shutterSpeed) film.iso)
        ((cond.evValue : ℚ) : ℝ) ∧
      x.exposureDelta = roundTo2 (calculateExposureValue x.aperture (1/x.shutterSpeed)
        film.iso - ((cond.evValue : ℚ) : ℝ)) := by
  constructor
  · intro s hs a ha
    constructor
    · rintro ⟨x, hx, ha', hs'⟩
      have hm := mem_combosOf.mp hx
      rw [← ha', ← hs']
      exact hm.2.2.2.1
    · intro htol
      refine ⟨⟨a, s, film.iso,
        roundTo2 (calculateExposureValue a (1/s) film.iso - ((cond.evValue : ℚ) : ℝ))⟩,
        mem_combosOf.mpr ⟨hs, ha, rfl, htol, rfl⟩, rfl, rfl⟩
  · intro x hx
    have hm := mem_combosOf.mp (result_settings_mem_combosOf h x hx)
    exact ⟨hm.2.2.2.1, hm.2.2.2.2⟩

/-- The candidate list of the two-candidate witness invocation: shutter 1/64 s,
apertures f/4 and f/8, ISO 100, EV 11.  The products a²·s are 2¹⁰ and 2¹²,
giving deltas −1 and +1, both within tolerance. -/
theorem combosOf_pair : combosOf (camK [64]) (lensK [4, 8]) (filmK 100) (condK 11) =
    [⟨4, 64, 100, -1⟩, ⟨8, 64, 100, 1⟩] := by
  have htol4 : isExposureWithinTolerance (calculateExposureValue 4 (1/64) 100)
      (((11:ℚ)):ℝ) :=
    (tol_iff_of_pos 4 64 100 11 11 (by norm_num) (by norm_num) (by norm_num)
      (by norm_num)).mpr (by constructor <;> norm_num)
  have htol8 : isExposureWithinTolerance (calculateExposureValue 8 (1/64) 100)
      (((11:ℚ)):ℝ) :=
    (tol_iff_of_pos 8 64 100 11 11 (by norm_num) (by norm_num) (by norm_num)
      (by norm_num)).mpr (by constructor <;> norm_num)
  have hEV4 : calculateExposureValue 4 (1/64) 100 = ((10:ℤ):ℝ) :=
    calcEV_pow2 4 64 100 10 (by norm_num) (by norm_num) (by norm_num) (by norm_num)
  have hEV8 : calculateExposureValue 8 (1/64) 100 = ((12:ℤ):ℝ) :=
    calcEV_pow2 8 64 100 12 (by norm_num) (by norm_num) (by norm_num) (by norm_num)
  have hd4 : roundTo2 (calculateExposureValue 4 (1/64) 100 - ((11:ℚ):ℝ)) = -1 := by
    rw [hEV4, show ((10:ℤ):ℝ) - ((11:ℚ):ℝ) = (((-1:ℤ)):ℝ) by push_cast; ring,
      roundTo2_intCast]
    norm_num
  have hd8 : roundTo2 (calculateExposureValue 8 (1/64) 100 - ((11:ℚ):ℝ)) = 1 := by
    rw [hEV8, show ((12:ℤ):ℝ) - ((11:ℚ):ℝ) = (((1:ℤ)):ℝ) by push_cast; ring,
      roundTo2_intCast]
    norm_num
  unfold combosOf findValidCombinations
  simp only [camK, lensK, filmK, condK]
  simp only [List.flatMap_cons, List.flatMap_nil, List.filterMap_cons, List.filterMap_nil]
  rw [if_pos htol4, if_pos htol8]
  simp only [List.append_nil]
  rw [hd4, hd8]

/-- Balance score of f/4 over the lens with apertures [4, 8] and a preferred
shutter speed: aperture index 0 against mid index 1 gives 9, plus 1. -/
theorem score_lens48_f4 (s i : ℚ) (d : ℝ) (hs : 30 ≤ s ∧ s ≤ 500) :
    calculateBalanceScore ⟨4, s, i, d⟩ (lensK [4, 8]) = 10 := by
  have hle : (4:ℚ) ≤ 8 := by norm_num
  unfold calculateBalanceScore getApertureScore getShutterSpeedScore sortAsc
    PREFERRED_SHUTTER_MIN PREFERRED_SHUTTER_MAX
  simp only [lensK]
  simp only [List.insertionSort, List.orderedInsert_nil, List.orderedInsert, if_pos hle]
  rw [if_pos hs]
  simp [List.indexOf_cons]

/-- Balance score of f/8 over the lens with apertures [4, 8] and a preferred
shutter speed: aperture index 1 equals the mid index, giving 10, plus 1. -/
theorem score_lens48_f8 (s i : ℚ) (d : ℝ) (hs : 30 ≤ s ∧ s ≤ 500) :
    calculateBalanceScore ⟨8, s, i, d⟩ (lensK [4, 8]) = 11 := by
  have hle : (4:ℚ) ≤ 8 := by norm_num
  have hb : ((4:ℚ) == 8) = false := beq_eq_false_iff_ne.mpr (by norm_num)
  unfold calculateBalanceScore getApertureScore getShutterSpeedScore sortAsc
    PREFERRED_SHUTTER_MIN PREFERRED_SHUTTER_MAX
  simp only [lensK]
  simp only [List.insertionSort, List.orderedInsert_nil, List.orderedInsert, if_pos hle]
  rw [if_pos hs]
  simp [List.indexOf_cons, hb]
  norm_num

theorem pair_cmp : ¬ scoreGe (lensK [4, 8]) ⟨4, 64, 100, -1⟩ ⟨8, 64, 100, 1⟩ := by
  unfold scoreGe
  rw [score_lens48_f4 64 100 (-1) ⟨by norm_num, by norm_num⟩,
    score_lens48_f8 64 100 1 ⟨by norm_num, by norm_num⟩]
  norm_num

/-- The solver's output at the two-candidate fixture. -/
theorem solve_pair : calculateExposureSettings (some (camK [64])) (some (lensK [4, 8]))
    (some (filmK 100)) (some (condK 11)) =
    .ok ⟨⟨8, 64, 100, 1⟩, [⟨4, 64, 100, -1⟩]⟩ := by
  rw [calculateExposureSettings_ok_of_ne_nil (by rw [combosOf_pair]; simp), combosOf_pair]
  have hsort : List.insertionSort (scoreGe (lensK [4, 8]))
      [(⟨4, 64, 100, -1⟩ : ExposureSettings), ⟨8, 64, 100, 1⟩] =
      [⟨8, 64, 100, 1⟩, ⟨4, 64, 100, -1⟩] := by
    simp only [List.insertionSort, List.orderedInsert_nil, List.orderedInsert,
      if_neg pair_cmp]
  have hsame8 : isSameSettings ⟨8, 64, 100, 1⟩ ⟨8, 64, 100, 1⟩ = true := by rfl
  have hsame4 : isSameSettings ⟨4, 64, 100, -1⟩ ⟨8, 64, 100, 1⟩ = false := by rfl
  have hrec : selectRecommendedSettings
      [(⟨4, 64, 100, -1⟩ : ExposureSettings), ⟨8, 64, 100, 1⟩] (lensK [4, 8]) =
      ⟨8, 64, 100, 1⟩ := by
    unfold selectRecommendedSettings
    rw [hsort]
    rfl
  have halt : selectAlternativeSettings
      [(⟨8, 64, 100, 1⟩ : ExposureSettings), ⟨4, 64, 100, -1⟩]
      (⟨8, 64, 100, 1⟩ : ExposureSettings) (lensK [4, 8]) = [⟨4, 64, 100, -1⟩] := by
    unfold selectAlternativeSettings
    simp [List.filter_cons, hsame8, hsame4, List.insertionSort, List.orderedInsert_nil]
  rw [hsort, hrec, halt]

/-- Witness for C2 at the two-candidate fixture. -/
theorem C2_recommended_argmax_witness :
    calculateExposureSettings (some (camK [64])) (some (lensK [4, 8])) (some (filmK 100))
        (some (condK 11)) = .ok ⟨⟨8, 64, 100, 1⟩, [⟨4, 64, 100, -1⟩]⟩ ∧
    ∃ pre post, combosOf (camK [64]) (lensK [4, 8]) (filmK 100) (condK 11) =
        pre ++ (⟨8, 64, 100, 1⟩ : ExposureSettings) :: post ∧
      (∀ x ∈ combosOf (camK [64]) (lensK [4, 8]) (filmK 100) (condK 11),
        calculateBalanceScore x (lensK [4, 8]) ≤
          calculateBalanceScore ⟨8, 64, 100, 1⟩ (lensK [4, 8])) ∧
      ∀ x ∈ pre, calculateBalanceScore x (lensK [4, 8]) <
        calculateBalanceScore ⟨8, 64, 100, 1⟩ (lensK [4, 8]) := by
  have hok := solve_pair
  exact ⟨hok, C2_recommended_argmax _ _ _ _ _ hok⟩

/-- Witness for C3 at the two-candidate fixture. -/
theorem C3_alternatives_witness :
    calculateExposureSettings (some (camK [64])) (some (lensK [4, 8])) (some (filmK 100))
        (some (condK 11)) = .ok ⟨⟨8, 64, 100, 1⟩, [⟨4, 64, 100, -1⟩]⟩ ∧
    [(⟨4, 64, 100, -1⟩ : ExposureSettings)].length ≤ 3 ∧
    isSameSettings ⟨4, 64, 100, -1⟩ ⟨8, 64, 100, 1⟩ = false := by
  have hok := solve_pair
  have hp := C3_alternatives _ _ _ _ _ hok
  exact ⟨hok, hp.2.1, hp.2.2 _ (by simp)⟩

/-- Witness for C5 at the two-candidate fixture: the recommended setting's
stored delta 1 is the rounding of its unrounded delta, which also passes the
tolerance filter. -/
theorem C5_delta_reporting_witness :
    calculateExposureSettings (some (camK [64])) (some (lensK [4, 8])) (some (filmK 100))
        (some (condK 11)) = .ok ⟨⟨8, 64, 100, 1⟩, [⟨4, 64, 100, -1⟩]⟩ ∧
    isExposureWithinTolerance (calculateExposureValue 8 (1/64) 100) ((11:ℚ) : ℝ) ∧
    (1:ℝ) = roundTo2 (calculateExposureValue 8 (1/64) 100 - ((11:ℚ) : ℝ)) := by
  have hok := solve_pair
  have hp := (C5_delta_reporting _ _ _ _ _ hok).2 ⟨8, 64, 100, 1⟩ (by simp)
  exact ⟨hok, hp.1, hp.2⟩

/-- C10: input validation checks only presence; if all four arguments are
supplied but either equipment list is empty, the solver fails with the
no-valid-combination error (never the invalid-input error). -/
theorem C10_empty_equipment (cam : Camera) (lns : Lens) (film : FilmStock)
    (cond : LightingCondition)
    (h : cam.availableShutterSpeeds = [] ∨ lns.availableApertures = []) :
    calculateExposureSettings (some cam) (some lns) (some film) (some cond) =
      .error .noValidCombination := by
  rw [calculateExposureSettings_noValid_iff]
  unfold combosOf
  rw [findValidCombinations_eq_nil_iff]
  rcases h with h | h <;> rw [h] <;> intro s hs a ha <;> simp at hs ha

/-- C7: the film stock's latitude fields never influence the output: two
invocations identical except in `latitude.over` / `latitude.under` produce
identical results — same recommended setting, same alternatives, same deltas,
same success or failure — because the latitude check is computed and its
result immediately discarded. -/
theorem C7_latitude_noninterference (camera : Option Camera) (lens : Option Lens)
    (lightingCondition : Option LightingCondition) (i nm : String) (iso : ℚ)
    (ty : FilmType) (lat1 lat2 : Latitude) :
    calculateExposureSettings camera lens (some ⟨i, nm, iso, ty, lat1⟩)
        lightingCondition =
      calculateExposureSettings camera lens (some ⟨i, nm, iso, ty, lat2⟩)
        lightingCondition := by
  cases camera <;> cases lens <;> cases lightingCondition <;> rfl

/-- C8 amended, positive part: the solver never changes which apertures the
lens offers — the final aperture list is a permutation of the original — and
when `lens.availableApertures` is already ascending-sorted it is unchanged
(so in that case no input is mutated at all; camera, film stock and lighting
condition are never written in any case). -/
theorem C8_apertures_after (cam : Camera) (lns : Lens) (film : FilmStock)
    (cond : LightingCondition) :
    (aperturesAfterSolve cam lns film cond).Perm lns.availableApertures ∧
    (lns.availableApertures.Sorted (· ≤ ·) →
      aperturesAfterSolve cam lns film cond = lns.availableApertures) := by
  unfold aperturesAfterSolve sortAsc
  constructor
  · split
    · exact List.perm_insertionSort _ _
    · exact List.Perm.refl _
  · intro hsorted
    split
    · exact hsorted.insertionSort_eq
    · rfl

/-- Witness for the amended C8 at an already-sorted singleton lens. -/
theorem C8_apertures_after_witness :
    (aperturesAfterSolve (camK [1]) (lensK [1]) (filmK 100) (condK 0)).Perm [1] ∧
    aperturesAfterSolve (camK [1]) (lensK [1]) (filmK 100) (condK 0) = [1] := by
  have h := C8_apertures_after (camK [1]) (lensK [1]) (filmK 100) (condK 0)
  exact ⟨h.1, h.2 (by simp [lensK])⟩

/-- The candidate list of the mutation counterexample: lens apertures listed
descending [4, 2], shutter 1/64 s, ISO 100, EV 9; both pairs survive
(products 2¹⁰ and 2⁸, deltas +1 and −1). -/
theorem combosOf_desc : combosOf (camK [64]) (lensK [4, 2]) (filmK 100) (condK 9) =
    [⟨4, 64, 100, 1⟩, ⟨2, 64, 100, -1⟩] := by
  have htol4 : isExposureWithinTolerance (calculateExposureValue 4 (1/64) 100)
      (((9:ℚ)):ℝ) :=
    (tol_iff_of_pos 4 64 100 9 9 (by norm_num) (by norm_num) (by norm_num)
      (by norm_num)).mpr (by constructor <;> norm_num)
  have htol2 : isExposureWithinTolerance (calculateExposureValue 2 (1/64) 100)
      (((9:ℚ)):ℝ) :=
    (tol_iff_of_pos 2 64 100 9 9 (by norm_num) (by norm_num) (by norm_num)
      (by norm_num)).mpr (by constructor <;> norm_num)
  have hEV4 : calculateExposureValue 4 (1/64) 100 = ((10:ℤ):ℝ) :=
    calcEV_pow2 4 64 100 10 (by norm_num) (by norm_num) (by norm_num) (by norm_num)
  have hEV2 : calculateExposureValue 2 (1/64) 100 = ((8:ℤ):ℝ) :=
    calcEV_pow2 2 64 100 8 (by norm_num) (by norm_num) (by norm_num) (by norm_num)
  have hd4 : roundTo2 (calculateExposureValue 4 (1/64) 100 - ((9:ℚ):ℝ)) = 1 := by
    rw [hEV4, show ((10:ℤ):ℝ) - ((9:ℚ):ℝ) = (((1:ℤ)):ℝ) by push_cast; ring,
      roundTo2_intCast]
    norm_num
  have hd2 : roundTo2 (calculateExposureValue 2 (1/64) 100 - ((9:ℚ):ℝ)) = -1 := by
    rw [hEV2, show ((8:ℤ):ℝ) - ((9:ℚ):ℝ) = (((-1:ℤ)):ℝ) by push_cast; ring,
      roundTo2_intCast]
    norm_num
  unfold combosOf findValidCombinations
  simp only [camK, lensK, filmK, condK]
  simp only [List.flatMap_cons, List.flatMap_nil, List.filterMap_cons, List.filterMap_nil]
  rw [if_pos htol4, if_pos htol2]
  simp only [List.append_nil]
  rw [hd4, hd2]

/-- C8 counterexample: with the lens apertures listed descending [4, 2] and
two surviving candidates, the lens's aperture list after the call is the
ascending [2, 4], not the original [4, 2] — the claim that all inputs are
unchanged fails. -/
theorem C8_counterexample :
    aperturesAfterSolve (camK [64]) (lensK [4, 2]) (filmK 100) (condK 9) ≠
      (lensK [4, 2]).availableApertures := by
  have hlen : (2:ℕ) ≤ (findValidCombinations (camK [64]).availableShutterSpeeds
      (lensK [4, 2]).availableApertures (filmK 100).iso (condK 9).evValue
      (filmK 100)).length := by
    have h := combosOf_desc
    unfold combosOf at h
    rw [h]
    simp
  unfold aperturesAfterSolve
  rw [if_pos hlen]
  have hsort : sortAsc (lensK [4, 2]).availableApertures = [2, 4] := by
    unfold sortAsc
    simp only [lensK]
    simp only [List.insertionSort, List.orderedInsert_nil, List.orderedInsert,
      if_neg (by norm_num : ¬ (4:ℚ) ≤ 2)]
  rw [hsort]
  simp only [lensK]
  intro hcon
  injection hcon with h1 h2
  norm_num at h1

/-- The candidate list of the sunny-16 reference input: one shutter speed
1/200 s, one aperture f/16, ISO 200, EV 15.  The product a²·s·iso/100 is
102400 = 2¹²·25, within tolerance, and the unrounded delta is 2·log₂5 − 3. -/
theorem combosOf_sunny16 : combosOf (camK [200]) (lensK [16]) (filmK 200) (condK 15) =
    [⟨16, 200, 200, 164/100⟩] := by
  have htol : isExposureWithinTolerance (calculateExposureValue 16 (1/200) 200)
      (((15:ℚ)):ℝ) :=
    (tol_iff_of_pos 16 200 200 15 15 (by norm_num) (by norm_num) (by norm_num)
      (by norm_num)).mpr (by constructor <;> norm_num)
  have hd : roundTo2 (calculateExposureValue 16 (1/200) 200 - ((15:ℚ):ℝ)) = 164/100 := by
    rw [calcEV_sunny16, show (2 * Real.logb 2 5 + 12) - ((15:ℚ):ℝ) =
      2 * Real.logb 2 5 - 3 by push_cast; ring, roundTo2_sunny16]
  unfold combosOf findValidCombinations
  simp only [camK, lensK, filmK, condK]
  simp only [List.flatMap_cons, List.flatMap_nil, List.filterMap_cons, List.filterMap_nil]
  rw [if_pos htol]
  simp only [List.append_nil]
  rw [hd]

/-- The solver's output on the sunny-16 reference input. -/
theorem solve_sunny16 : calculateExposureSettings (some (camK [200])) (some (lensK [16]))
    (some (filmK 200)) (some (condK 15)) = .ok ⟨⟨16, 200, 200, 164/100⟩, []⟩ := by
  rw [calculateExposureSettings_ok_of_ne_nil (by rw [combosOf_sunny16]; simp),
    combosOf_sunny16]
  have hsort : List.insertionSort (scoreGe (lensK [16]))
      [(⟨16, 200, 200, 164/100⟩ : ExposureSettings)] = [⟨16, 200, 200, 164/100⟩] := by
    simp [List.insertionSort, List.orderedInsert]
  have hrec : selectRecommendedSettings [(⟨16, 200, 200, 164/100⟩ : ExposureSettings)]
      (lensK [16]) = ⟨16, 200, 200, 164/100⟩ := by
    unfold selectRecommendedSettings
    rw [hsort]
    rfl
  have halt : selectAlternativeSettings [(⟨16, 200, 200, 164/100⟩ : ExposureSettings)]
      (⟨16, 200, 200, 164/100⟩ : ExposureSettings) (lensK [16]) = [] := by
    unfold selectAlternativeSettings
    simp [isSameSettings, List.insertionSort]
  rw [hsort, hrec, halt]

/-- C6 counterexample: on the sunny-16 reference input the solver does return
recommended aperture 16, shutter 200, ISO 200, but the exposureDelta is 1.64,
which is not within 0.1 of 0 — the claim's delta assertion fails on the code
(the implementation adds log2(iso/100) where its own documentation subtracts
it, and even the documented formula would give ≈ −0.36). -/
theorem C6_counterexample :
    calculateExposureSettings (some (camK [200])) (some (lensK [16])) (some (filmK 200))
        (some (condK 15)) = .ok ⟨⟨16, 200, 200, 164/100⟩, []⟩ ∧
    ¬ |((164:ℝ)/100)| ≤ 1/10 := by
  refine ⟨solve_sunny16, ?_⟩
  rw [abs_le]
  intro hcon
  linarith [hcon.2]

/-- C6 amended: on the sunny-16 reference input the solver succeeds with
recommended = {aperture 16, shutterSpeed 200, iso 200} and exposureDelta
exactly 1.64; the unrounded delta 2·log₂5 − 3 is within 0.01 of 1.64 (about
+1.64 stops, not ≈ 0). -/
theorem C6_sunny16_amended :
    calculateExposureSettings (some (camK [200])) (some (lensK [16])) (some (filmK 200))
        (some (condK 15)) = .ok ⟨⟨16, 200, 200, 164/100⟩, []⟩ ∧
    |calculateExposureValue 16 (1/200) 200 - 15 - 164/100| ≤ 1/100 := by
  refine ⟨solve_sunny16, ?_⟩
  rw [calcEV_sunny16, abs_le]
  have hlo := logb_two_five_lo
  have hhi := logb_two_five_hi
  constructor <;> linarith

/-- C9 failing input, ISO 100, candidate f/4 at 1/60 (delta kept symbolic). -/
noncomputable def c9a1 : ExposureSettings :=
  ⟨4, 60, 100, roundTo2 (calculateExposureValue 4 (1/60) 100 - ((10:ℚ):ℝ))⟩

/-- C9 failing input, ISO 100, candidate f/8 at 1/60. -/
noncomputable def c9a2 : ExposureSettings :=
  ⟨8, 60, 100, roundTo2 (calculateExposureValue 8 (1/60) 100 - ((10:ℚ):ℝ))⟩

/-- C9 failing input, ISO 100, candidate f/4 at 1/30. -/
noncomputable def c9a3 : ExposureSettings :=
  ⟨4, 30, 100, roundTo2 (calculateExposureValue 4 (1/30) 100 - ((10:ℚ):ℝ))⟩

/-- C9 failing input, ISO 100, candidate f/8 at 1/30. -/
noncomputable def c9a4 : ExposureSettings :=
  ⟨8, 30, 100, roundTo2 (calculateExposureValue 8 (1/30) 100 - ((10:ℚ):ℝ))⟩

/-- C9 failing input, ISO 800, the only candidate: f/4 at 1/30. -/
noncomputable def c9b : ExposureSettings :=
  ⟨4, 30, 800, roundTo2 (calculateExposureValue 4 (1/30) 800 - ((10:ℚ):ℝ))⟩

/-- The candidate list of the C9 failing input at ISO 100: all four pairs of
camera [60, 30] × lens [4, 8] survive at EV 10 (products 960, 3840, 480, 1920,
all within [2⁸, 2¹²]). -/
theorem combosOf_c9a : combosOf (camK [60, 30]) (lensK [4, 8]) (filmK 100) (condK 10) =
    [c9a1, c9a2, c9a3, c9a4] := by
  have t1 : isExposureWithinTolerance (calculateExposureValue 4 (1/60) 100)
      (((10:ℚ)):ℝ) :=
    (tol_iff_of_pos 4 60 100 10 10 (by norm_num) (by norm_num) (by norm_num)
      (by norm_num)).mpr (by constructor <;> norm_num)
  have t2 : isExposureWithinTolerance (calculateExposureValue 8 (1/60) 100)
      (((10:ℚ)):ℝ) :=
    (tol_iff_of_pos 8 60 100 10 10 (by norm_num) (by norm_num) (by norm_num)
      (by norm_num)).mpr (by constructor <;> norm_num)
  have t3 : isExposureWithinTolerance (calculateExposureValue 4 (1/30) 100)
      (((10:ℚ)):ℝ) :=
    (tol_iff_of_pos 4 30 100 10 10 (by norm_num) (by norm_num) (by norm_num)
      (by norm_num)).mpr (by constructor <;> norm_num)
  have t4 : isExposureWithinTolerance (calculateExposureValue 8 (1/30) 100)
      (((10:ℚ)):ℝ) :=
    (tol_iff_of_pos 8 30 100 10 10 (by norm_num) (by norm_num) (by norm_num)
      (by norm_num)).mpr (by constructor <;> norm_num)
  unfold combosOf findValidCombinations
  simp only [camK, lensK, filmK, condK]
  simp only [List.flatMap_cons, List.flatMap_nil, List.filterMap_cons, List.filterMap_nil]
  rw [if_pos t1, if_pos t2, if_pos t3, if_pos t4]
  simp only [List.append_nil, List.cons_append, List.nil_append]
  simp only [c9a1, c9a2, c9a3, c9a4]

/-- The candidate list of the C9 failing input at ISO 800: only f/4 at 1/30
survives (product 3840; the other products 7680, 30720, 15360 exceed 2¹²). -/
theorem combosOf_c9b : combosOf (camK [60, 30]) (lensK [4, 8]) (filmK 800) (condK 10) =
    [c9b] := by
  have n1 : ¬ isExposureWithinTolerance (calculateExposureValue 4 (1/60) 800)
      (((10:ℚ)):ℝ) := by
    intro h
    have h2 := (tol_iff_of_pos 4 60 800 10 10 (by norm_num) (by norm_num) (by norm_num)
      (by norm_num)).mp h
    norm_num at h2
  have n2 : ¬ isExposureWithinTolerance (calculateExposureValue 8 (1/60) 800)
      (((10:ℚ)):ℝ) := by
    intro h
    have h2 := (tol_iff_of_pos 8 60 800 10 10 (by norm_num) (by norm_num) (by norm_num)
      (by norm_num)).mp h
    norm_num at h2
  have p3 : isExposureWithinTolerance (calculateExposureValue 4 (1/30) 800)
      (((10:ℚ)):ℝ) :=
    (tol_iff_of_pos 4 30 800 10 10 (by norm_num) (by norm_num) (by norm_num)
      (by norm_num)).mpr (by constructor <;> norm_num)
  have n4 : ¬ isExposureWithinTolerance (calculateExposureValue 8 (1/30) 800)
      (((10:ℚ)):ℝ) := by
    intro h
    have h2 := (tol_iff_of_pos 8 30 800 10 10 (by norm_num) (by norm_num) (by norm_num)
      (by norm_num)).mp h
    norm_num at h2
  unfold combosOf findValidCombinations
  simp only [camK, lensK, filmK, condK]
  simp only [List.flatMap_cons, List.flatMap_nil, List.filterMap_cons, List.filterMap_nil]
  rw [if_neg n1, if_neg n2, if_pos p3, if_neg n4]
  simp only [List.append_nil, List.cons_append, List.nil_append]
  simp only [c9b]

/-- The solver's output at the C9 failing input with ISO 100: recommended f/8
at 1/60 (score 11, enumeration-earliest maximum), alternatives f/8 at 1/30,
f/4 at 1/60, f/4 at 1/30. -/
theorem solve_c9a : calculateExposureSettings (some (camK [60, 30]))
    (some (lensK [4, 8])) (some (filmK 100)) (some (condK 10)) =
    .ok ⟨c9a2, [c9a4, c9a1, c9a3]⟩ := by
  have s1 : calculateBalanceScore c9a1 (lensK [4, 8]) = 10 := by
    unfold c9a1
    exact score_lens48_f4 60 100 _ ⟨by norm_num, by norm_num⟩
  have s2 : calculateBalanceScore c9a2 (lensK [4, 8]) = 11 := by
    unfold c9a2
    exact score_lens48_f8 60 100 _ ⟨by norm_num, by norm_num⟩
  have s3 : calculateBalanceScore c9a3 (lensK [4, 8]) = 10 := by
    unfold c9a3
    exact score_lens48_f4 30 100 _ ⟨by norm_num, by norm_num⟩
  have s4 : calculateBalanceScore c9a4 (lensK [4, 8]) = 11 := by
    unfold c9a4
    exact score_lens48_f8 30 100 _ ⟨by norm_num, by norm_num⟩
  have g34 : ¬ scoreGe (lensK [4, 8]) c9a3 c9a4 := by
    unfold scoreGe
    rw [s3, s4]
    norm_num
  have g24 : scoreGe (lensK [4, 8]) c9a2 c9a4 := by
    unfold scoreGe
    rw [s2, s4]
  have g12 : ¬ scoreGe (lensK [4, 8]) c9a1 c9a2 := by
    unfold scoreGe
    rw [s1, s2]
    norm_num
  have g14 : ¬ scoreGe (lensK [4, 8]) c9a1 c9a4 := by
    unfold scoreGe
    rw [s1, s4]
    norm_num
  have g13 : scoreGe (lensK [4, 8]) c9a1 c9a3 := by
    unfold scoreGe
    rw [s1, s3]
  have g41 : scoreGe (lensK [4, 8]) c9a4 c9a1 := by
    unfold scoreGe
    rw [s1, s4]
    norm_num
  have hsort : List.insertionSort (scoreGe (lensK [4, 8])) [c9a1, c9a2, c9a3, c9a4] =
      [c9a2, c9a4, c9a1, c9a3] := by
    simp only [List.insertionSort, List.orderedInsert_nil, List.orderedInsert,
      if_neg g34, if_pos g24, if_neg g12, if_neg g14, if_pos g13]
  have e22 : isSameSettings c9a2 c9a2 = true := by rfl
  have e42 : isSameSettings c9a4 c9a2 = false := by rfl
  have e12 : isSameSettings c9a1 c9a2 = false := by rfl
  have e32 : isSameSettings c9a3 c9a2 = false := by rfl
  have hrec : selectRecommendedSettings [c9a1, c9a2, c9a3, c9a4] (lensK [4, 8]) = c9a2 := by
    unfold selectRecommendedSettings
    rw [hsort]
    rfl
  have halt : selectAlternativeSettings [c9a2, c9a4, c9a1, c9a3] c9a2 (lensK [4, 8]) =
      [c9a4, c9a1, c9a3] := by
    unfold selectAlternativeSettings
    rw [List.filter_cons, List.filter_cons, List.filter_cons, List.filter_cons,
      e22, e42, e12, e32]
    simp only [Bool.not_true, Bool.not_false, List.filter_nil, if_true, if_false,
      Bool.false_eq_true, ite_false, ite_true]
    rw [show List.insertionSort (scoreGe (lensK [4, 8])) [c9a4, c9a1, c9a3] =
        [c9a4, c9a1, c9a3] by
      simp only [List.insertionSort, List.orderedInsert_nil, List.orderedInsert,
        if_pos g13, if_pos g41]]
    rfl
  rw [calculateExposureSettings_ok_of_ne_nil (by rw [combosOf_c9a]; simp), combosOf_c9a,
    hsort, hrec, halt]

/-- The solver's output at the C9 failing input with ISO 800: the single
candidate f/4 at 1/30 is recommended, with no alternatives. -/
theorem solve_c9b : calculateExposureSettings (some (camK [60, 30]))
    (some (lensK [4, 8])) (some (filmK 800)) (some (condK 10)) = .ok ⟨c9b, []⟩ := by
  rw [calculateExposureSettings_ok_of_ne_nil (by rw [combosOf_c9b]; simp), combosOf_c9b]
  have hsort : List.insertionSort (scoreGe (lensK [4, 8])) [c9b] = [c9b] := by
    simp [List.insertionSort, List.orderedInsert]
  have hrec : selectRecommendedSettings [c9b] (lensK [4, 8]) = c9b := by
    unfold selectRecommendedSettings
    rw [hsort]
    rfl
  have halt : selectAlternativeSettings [c9b] c9b (lensK [4, 8]) = [] := by
    unfold selectAlternativeSettings
    have : isSameSettings c9b c9b = true := by rfl
    simp [List.filter_cons, this, List.insertionSort]
  rw [hsort, hrec, halt]

/-- C9: the claimed monotone ISO effect fails on the code.  Holding EV 10,
camera [60, 30] and lens [4, 8] fixed and raising the film ISO from 100 to
800, the recommendation moves from f/8 at 1/60 to f/4 at 1/30: both the
aperture f-number and the shutter-speed denominator strictly decrease,
the opposite of a shift toward smaller apertures / faster shutter speeds.
The exposure formula adds log2(iso/100) where the source's own documentation
comment (`2^EV = aperture²·100 / (ISO·shutterSpeed)`) subtracts it. -/
theorem C9_iso_monotonicity_failure :
    calculateExposureSettings (some (camK [60, 30])) (some (lensK [4, 8]))
        (some (filmK 100)) (some (condK 10)) = .ok ⟨c9a2, [c9a4, c9a1, c9a3]⟩ ∧
    calculateExposureSettings (some (camK [60, 30])) (some (lensK [4, 8]))
        (some (filmK 800)) (some (condK 10)) = .ok ⟨c9b, []⟩ ∧
    (100:ℚ) < 800 ∧
    c9a2.aperture = 8 ∧ c9a2.shutterSpeed = 60 ∧
    c9b.aperture = 4 ∧ c9b.shutterSpeed = 30 ∧
    (4:ℚ) < 8 ∧ (30:ℚ) < 60 :=
  ⟨solve_c9a, solve_c9b, by norm_num, rfl, rfl, rfl, rfl, by norm_num, by norm_num⟩

/-- Witness for C10: an empty shutter-speed list and an empty aperture list. -/
theorem C10_empty_equipment_witness :
    calculateExposureSettings (some (camK [])) (some (lensK [1])) (some (filmK 100))
        (some (condK 0)) = .error .noValidCombination ∧
    calculateExposureSettings (some (camK [1])) (some (lensK [])) (some (filmK 100))
        (some (condK 0)) = .error .noValidCombination :=
  ⟨C10_empty_equipment _ _ _ _ (Or.inl rfl), C10_empty_equipment _ _ _ _ (Or.inr rfl)⟩

end FilmMate
